import Mathlib

/-!
Shallow embedding of the cli-builder-core repository: the prompt resolution
engine (src/core/cli-builder.ts), the plugin hook orchestrator
(src/plugins/plugin-manager.ts) and the template materialization pipeline
(src/core/project-generator.ts), together with theorems settling the frozen
claims about their behaviour.
-/

namespace CliBuilder

/-! ### JavaScript value model

JavaScript runtime values as far as the embedded code inspects them:
undefined, null, booleans, numbers (kept as integers; none of the embedded
code computes with fractional numbers), strings, opaque object references
(identified by a tag) and arrays of values.
-/

inductive JsVal : Type where
  | undefinedV : JsVal
  | nullv : JsVal
  | boolv : Bool → JsVal
  | numv : Int → JsVal
  | strv : String → JsVal
  | objv : Nat → JsVal
  | arrv : List JsVal → JsVal

/-- JavaScript truthiness of a value (NaN is not representable here; none of
the embedded code produces it as a stored value). -/
def jsTruthy : JsVal → Bool
  | .undefinedV => false
  | .nullv => false
  | .boolv b => b
  | .numv n => n ≠ 0
  | .strv s => s ≠ ""
  | .objv _ => true
  | .arrv _ => true

/-- String coercion as used in template literals. Object and array
stringification is not exercised by any claim; a fixed placeholder keeps the
function total. -/
def jsToString : JsVal → String
  | .undefinedV => "undefined"
  | .nullv => "null"
  | .boolv true => "true"
  | .boolv false => "false"
  | .numv n => toString n
  | .strv s => s
  | .objv _ => "[object Object]"
  | .arrv _ => "[array]"

/-- The SameValueZero comparison used by Map keys. Objects and arrays compare
by identity; two array literals are distinct references, so the array case is
conservatively false (no embedded code path ever stores an array key). -/
def jsSameValueZero : JsVal → JsVal → Bool
  | .undefinedV, .undefinedV => true
  | .nullv, .nullv => true
  | .boolv a, .boolv b => a = b
  | .numv a, .numv b => a = b
  | .strv a, .strv b => a = b
  | .objv a, .objv b => a = b
  | _, _ => false

/-- String.prototype.toLowerCase restricted to ASCII, which is all the
confirm-prompt comparison set contains. -/
def jsToLower (s : String) : String := ⟨s.data.map Char.toLower⟩

/-- String.prototype.split with a single-character separator, over the
character list: split(sep) of the empty string is one empty piece. -/
def splitOnChar (sep : Char) : List Char → List (List Char)
  | [] => [[]]
  | c :: rest =>
    let r := splitOnChar sep rest
    if c = sep then [] :: r
    else
      match r with
      | h :: t => (c :: h) :: t
      | [] => [[c]]

/-- String.prototype.split(",") as used by the multiselect handler. -/
def jsSplitComma (s : String) : List String :=
  (splitOnChar ',' s.data).map (fun l => ⟨l⟩)

/-- Leading-whitespace skip of parseInt / String.prototype.trim. -/
def jsIsSpace (c : Char) : Bool := c = ' ' ∨ c = '\t' ∨ c = '\n' ∨ c = '\r'

/-- String.prototype.trim: strip whitespace from both ends. -/
def jsTrim (s : String) : String :=
  ⟨((s.data.dropWhile jsIsSpace).reverse.dropWhile jsIsSpace).reverse⟩

/-- Leading decimal digits of a character list, as a number; none when the
list does not start with a digit (parseInt would yield NaN). -/
def leadingDigits (cs : List Char) : Option Nat :=
  match cs with
  | c :: _ =>
    if c.isDigit then
      some ((cs.takeWhile Char.isDigit).foldl (fun n d => 10 * n + (d.toNat - 48)) 0)
    else none
  | [] => none

/-- parseInt(s) in radix 10: skip leading whitespace, optional sign, then
leading digits; none models NaN. -/
def jsParseInt (s : String) : Option Int :=
  match s.data.dropWhile jsIsSpace with
  | '-' :: rest => (leadingDigits rest).map (fun n => -(n : Int))
  | '+' :: rest => (leadingDigits rest).map (fun n => (n : Int))
  | rest => (leadingDigits rest).map (fun n => (n : Int))

/-! ### Answer sets

A JavaScript object used as a mapping from prompt name to resolved value,
modelled as an insertion-ordered association list. A key whose lookup is none
corresponds to `answers[name] === undefined`. -/

def AnswerSet : Type := List (String × JsVal)

/-- Property read: answers[k], none standing for undefined. -/
def jsGet (a : AnswerSet) (k : String) : Option JsVal :=
  match a with
  | [] => none
  | (k', v) :: rest => if k' = k then some v else jsGet rest k

/-- Property write: answers[k] = v (replace in place, else append). -/
def jsSet (a : AnswerSet) (k : String) (v : JsVal) : AnswerSet :=
  match a with
  | [] => [(k, v)]
  | (k', v') :: rest => if k' = k then (k', v) :: rest else (k', v') :: jsSet rest k v

theorem jsGet_jsSet_ne (a : AnswerSet) (k k' : String) (v : JsVal) (h : k ≠ k') :
    jsGet (jsSet a k v) k' = jsGet a k' := by
  induction a with
  | nil => simp [jsSet, jsGet, h]
  | cons hd tl ih =>
    obtain ⟨k0, v0⟩ := hd
    by_cases hk : k0 = k
    · subst hk
      simp [jsSet, jsGet, h]
    · simp only [jsSet, if_neg hk, jsGet]
      by_cases hk' : k0 = k'
      · simp [hk']
      · simp [hk', ih]

theorem jsGet_jsSet_self (a : AnswerSet) (k : String) (v : JsVal) :
    jsGet (jsSet a k v) k = some v := by
  induction a with
  | nil => simp [jsSet, jsGet]
  | cons hd tl ih =>
    obtain ⟨k0, v0⟩ := hd
    by_cases hk : k0 = k
    · subst hk
      simp [jsSet, jsGet]
    · simp [jsSet, if_neg hk, jsGet, hk, ih]

/-! ### Prompt resolution engine (src/core/cli-builder.ts)

The line reader is modelled as a state carrying the not-yet-consumed input
lines and a trace of the queries asked so far.  Reading from an exhausted
stream is a distinguished fault (the real process would block forever
waiting for a human). -/

structure RState : Type where
  lines : List String
  asked : List String

/-- readlineManager.question: consume one input line, recording the query. -/
def readLine (query : String) (st : RState) : Option (String × RState) :=
  match st.lines with
  | [] => none
  | l :: rest => some (l, { lines := rest, asked := st.asked ++ [query] })

/-- Result of a ValidationRule.validate call: true, false, or an error
message string. -/
inductive VRes : Type where
  | vTrue : VRes
  | vFalse : VRes
  | vStr : String → VRes

structure VRule : Type where
  validate : JsVal → AnswerSet → VRes
  message : Option String

inductive PType : Type where
  | input | select | confirm | multiselect
deriving DecidableEq

structure Choice : Type where
  name : String
  value : JsVal
  description : Option String

structure Prompt : Type where
  name : String
  ptype : PType
  message : String
  defaultVal : Option JsVal
  choices : Option (List Choice)
  validate : Option VRule
  whenP : Option (AnswerSet → Bool)
  transform : Option (JsVal → JsVal)

/-- Faults of prompt processing: exhausted input (the real loop would block),
a select/multiselect prompt without choices (thrown Error). -/
inductive Fault : Type where
  | blocked
  | selectNoChoices
  | multiNoChoices
deriving DecidableEq

/-- Default hint of an input prompt: prompt.default ? " (default)" : "". -/
def inputDefaultHint (p : Prompt) : String :=
  match p.defaultVal with
  | some v => if jsTruthy v then " (" ++ jsToString v ++ ")" else ""
  | none => ""

/-- CLIBuilder.handleInputPrompt retry loop.  Each iteration consumes one
line, so the source's unbounded while loop is run with the stream length as
fuel; exhausting fuel means the stream ran dry and the process blocks. -/
def handleInputLoop (p : Prompt) (answers : AnswerSet) :
    Nat → RState → Except Fault (JsVal × RState)
  | 0, _ => .error .blocked
  | fuel + 1, st =>
    match readLine (p.message ++ inputDefaultHint p ++ ": ") st with
    | none => .error .blocked
    | some (line, st') =>
      let value : JsVal :=
        if line = "" ∧ (p.defaultVal.map jsTruthy).getD false then
          p.defaultVal.getD (.strv line)
        else .strv line
      match p.validate with
      | none => .ok (value, st')
      | some rule =>
        match rule.validate value answers with
        | .vTrue => .ok (value, st')
        | _ => handleInputLoop p answers fuel st'

def handleInputPrompt (p : Prompt) (answers : AnswerSet) (st : RState) :
    Except Fault (JsVal × RState) :=
  handleInputLoop p answers (st.lines.length + 1) st

/-- CLIBuilder.handleSelectPrompt retry loop on the parsed 0-based index. -/
def handleSelectLoop (choices : List Choice) :
    Nat → RState → Except Fault (JsVal × RState)
  | 0, _ => .error .blocked
  | fuel + 1, st =>
    match readLine "\nSelect option: " st with
    | none => .error .blocked
    | some (line, st') =>
      match (jsParseInt line).map (fun n => n - 1) with
      | some index =>
        if 0 ≤ index ∧ index < (choices.length : Int) then
          .ok ((choices.getD index.toNat ⟨"", .undefinedV, none⟩).value, st')
        else handleSelectLoop choices fuel st'
      | none => handleSelectLoop choices fuel st'

def handleSelectPrompt (p : Prompt) (st : RState) :
    Except Fault (JsVal × RState) :=
  match p.choices with
  | none => .error .selectNoChoices
  | some choices => handleSelectLoop choices (st.lines.length + 1) st

/-- Default hint of a confirm prompt:
prompt.default !== undefined ? (prompt.default ? " (Y/n)" : " (y/N)") : " (y/N)". -/
def confirmDefaultHint (p : Prompt) : String :=
  match p.defaultVal with
  | some v => if jsTruthy v then " (Y/n)" else " (y/N)"
  | none => " (y/N)"

/-- CLIBuilder.handleConfirmPrompt.  The source contains the statement
if (!answer && prompt.default != null) then the bare expression
prompt.default — a no-op, so the configured default is never substituted;
the answer is the untrimmed lowercased line's membership in the affirmative
token set. -/
def handleConfirmPrompt (p : Prompt) (st : RState) :
    Except Fault (JsVal × RState) :=
  match readLine (p.message ++ confirmDefaultHint p ++ ": ") st with
  | none => .error .blocked
  | some (line, st') =>
    .ok (.boolv (["y", "yes", "true", "1"].contains (jsToLower line)), st')

/-- One token of the multiselect line: parseInt(s.trim()) - 1, none for NaN. -/
def msIndex (s : String) : Option Int :=
  (jsParseInt (jsTrim s)).map (fun n => n - 1)

/-- The range filter index >= 0 && index < choices.length; a NaN index fails
both comparisons. -/
def msInRange (choices : List Choice) : Option Int → Bool
  | some i => decide (0 ≤ i ∧ i < (choices.length : Int))
  | none => false

/-- The projection choices[index].value of an in-range index. -/
def msValue (choices : List Choice) : Option Int → JsVal
  | some i => (choices.getD i.toNat ⟨"", .undefinedV, none⟩).value
  | none => .undefinedV

/-- CLIBuilder.handleMultiSelectPrompt: one line, split on commas, each token
trimmed and parsed as an integer minus one, indices filtered to range, mapped
to choice values. -/
def handleMultiSelectPrompt (p : Prompt) (st : RState) :
    Except Fault (JsVal × RState) :=
  match p.choices with
  | none => .error .multiNoChoices
  | some choices =>
    match readLine "\nSelect options: " st with
    | none => .error .blocked
    | some (line, st') =>
      let indices : List (Option Int) := (jsSplitComma line).map msIndex
      let values := (indices.filter (msInRange choices)).map (msValue choices)
      .ok (.arrv values, st')

/-- CLIBuilder.processPrompt: dispatch on the prompt kind. -/
def processPrompt (p : Prompt) (answers : AnswerSet) (st : RState) :
    Except Fault (JsVal × RState) :=
  match p.ptype with
  | .input => handleInputPrompt p answers st
  | .select => handleSelectPrompt p st
  | .confirm => handleConfirmPrompt p st
  | .multiselect => handleMultiSelectPrompt p st

/-- The prompt loop of CLIBuilder.collectAnswers: skip when the visibility
predicate fails, skip when the key is already answered, otherwise process the
prompt and store the (possibly transformed) answer. -/
def processPrompts (prompts : List Prompt) (answers : AnswerSet) (st : RState) :
    Except Fault (AnswerSet × RState) :=
  match prompts with
  | [] => .ok (answers, st)
  | p :: rest =>
    if (p.whenP.map (fun w => !w answers)).getD false then
      processPrompts rest answers st
    else if (jsGet answers p.name).isSome then
      processPrompts rest answers st
    else
      match processPrompt p answers st with
      | .error e => .error e
      | .ok (answer, st') =>
        let stored := match p.transform with
          | some t => t answer
          | none => answer
        processPrompts rest (jsSet answers p.name stored) st'

/-- CLIBuilder.fillDefaults: fill every still-unset prompt name from its
default when one is configured.  The visibility predicate is not consulted. -/
def fillDefaults (prompts : List Prompt) (answers : AnswerSet) : AnswerSet :=
  prompts.foldl
    (fun result p =>
      if (jsGet result p.name).isNone && p.defaultVal.isSome then
        jsSet result p.name (p.defaultVal.getD .undefinedV)
      else result)
    answers

structure Options : Type where
  template : Option String
  yes : Bool
  asyncFlag : Bool
  syncFlag : Bool

structure CLIConfig : Type where
  prompts : List Prompt
  allowModeSelection : Bool

/-- CLIBuilder.collectAnswers: seed the answer set from the command line,
return defaults immediately under the yes flag, otherwise possibly ask for
the readline mode and then run the prompt loop. -/
def collectAnswers (cfg : CLIConfig) (projectName : Option String)
    (opts : Options) (st : RState) : Except Fault (AnswerSet × RState) :=
  let answers : AnswerSet := []
  let answers :=
    match projectName with
    | some s => if s ≠ "" then jsSet answers "projectName" (.strv s) else answers
    | none => answers
  let answers :=
    match opts.template with
    | some s => if s ≠ "" then jsSet answers "template" (.strv s) else answers
    | none => answers
  if opts.yes then
    .ok (fillDefaults cfg.prompts answers, st)
  else
    let afterMode : Except Fault RState :=
      if cfg.allowModeSelection ∧ ¬opts.asyncFlag ∧ ¬opts.syncFlag then
        match readLine "Select option (1-2): " st with
        | none => .error .blocked
        | some (_, st') => .ok st'
      else .ok st
    match afterMode with
    | .error e => .error e
    | .ok st' => processPrompts cfg.prompts answers st'

/-! ### Error objects

A thrown JavaScript value as far as the embedded code inspects it: whether it
is an Error instance, which error class the ErrorFactory gave it, and its
message. -/

inductive ErrKind : Type where
  | filesystem | dependency | plugin | other
deriving DecidableEq

structure JsThrown : Type where
  isError : Bool
  kind : ErrKind
  msg : String
deriving DecidableEq

/-! ### Plugin hook orchestrator (src/plugins/plugin-manager.ts) -/

/-- Character class [0-9A-Za-z-] of the semver identifier grammar. -/
def isSemverIdentChar (c : Char) : Bool :=
  c.isDigit ∨ ('A' ≤ c ∧ c ≤ 'Z') ∨ ('a' ≤ c ∧ c ≤ 'z') ∨ c = '-'

/-- Consume one or more digits; none if the list does not start with one. -/
def chompDigits : List Char → Option (List Char)
  | c :: rest => if c.isDigit then some (rest.dropWhile Char.isDigit) else none
  | [] => none

/-- Consume one or more semver identifier characters. -/
def chompIdent : List Char → Option (List Char)
  | c :: rest =>
    if isSemverIdentChar c then some (rest.dropWhile isSemverIdentChar) else none
  | [] => none

/-- Consume ident ("." ident)*, with fuel bounded by the list length. -/
def chompDotSeq : Nat → List Char → Option (List Char)
  | 0, _ => none
  | fuel + 1, cs =>
    match chompIdent cs with
    | none => none
    | some rest =>
      match rest with
      | '.' :: rest' => chompDotSeq fuel rest'
      | _ => some rest

/-- The strict semantic-version test of PluginManager.validatePluginConfig:
the anchored regular expression MAJOR.MINOR.PATCH with optional -prerelease
and +buildmetadata dot-separated identifier sequences.  Every quantifier in
the source pattern is greedy over a character class disjoint from what
follows, so greedy parsing without backtracking is equivalent. -/
def semverTest (s : String) : Bool :=
  let step := fun (r : Option (List Char)) =>
    match r with
    | some ('.' :: rest) => chompDigits rest
    | _ => none
  match step (step (chompDigits s.data)) with
  | none => false
  | some afterPatch =>
    let afterPre :=
      match afterPatch with
      | '-' :: rest => chompDotSeq (rest.length + 1) rest
      | _ => some afterPatch
    match afterPre with
    | none => false
    | some afterPre' =>
      let afterBuild :=
        match afterPre' with
        | '+' :: rest => chompDotSeq (rest.length + 1) rest
        | _ => some afterPre'
      match afterBuild with
      | none => false
      | some [] => true
      | some _ => false

/-- A plugin configuration as the manager inspects it: the name and version
fields are arbitrary JavaScript values until validated. -/
structure PluginCfg : Type where
  name : JsVal
  version : JsVal

/-- The plugin registry: an insertion-ordered map keyed by SameValueZero. -/
abbrev Registry : Type := List (JsVal × PluginCfg)

def mapHas (m : Registry) (k : JsVal) : Bool :=
  m.any (fun kv => jsSameValueZero kv.1 k)

def mapGet (m : Registry) (k : JsVal) : Option PluginCfg :=
  (m.find? (fun kv => jsSameValueZero kv.1 k)).map (·.2)

def mapSet (m : Registry) (k : JsVal) (v : PluginCfg) : Registry :=
  if mapHas m k then
    m.map (fun kv => if jsSameValueZero kv.1 k then (kv.1, v) else kv)
  else m ++ [(k, v)]

/-- The check !field || typeof field !== "string" fails exactly on truthy
strings, i.e. nonempty strings. -/
def isTruthyString : JsVal → Bool
  | .strv s => s ≠ ""
  | _ => false

/-- PluginManager.validatePluginConfig: name and version must be truthy
strings and the version must pass the semver grammar. -/
def validatePluginConfig (config : PluginCfg) : Except JsThrown Unit :=
  if ¬ isTruthyString config.name then
    .error ⟨true, .plugin, "Plugin name is required and must be a string"⟩
  else if ¬ isTruthyString config.version then
    .error ⟨true, .plugin, "Plugin version is required and must be a string"⟩
  else if ¬ semverTest (jsToString config.version) then
    .error ⟨true, .plugin,
      "Plugin version " ++ jsToString config.version ++ " is not a valid semantic version"⟩
  else .ok ()

/-- PluginManager.install: reject a duplicate name, validate the
configuration, then store it keyed by name.  The surrounding catch re-wraps
any Error with an installation-failure message, still as a plugin error. -/
def install (plugins : Registry) (config : PluginCfg) :
    Except JsThrown Unit × Registry :=
  let body : Except JsThrown Unit × Registry :=
    if mapHas plugins config.name then
      (.error ⟨true, .plugin,
        "Plugin " ++ jsToString config.name ++ " is already installed"⟩, plugins)
    else
      match validatePluginConfig config with
      | .error e => (.error e, plugins)
      | .ok _ => (.ok (), mapSet plugins config.name config)
  match body with
  | (.error e, st) =>
    if e.isError then
      (.error ⟨true, .plugin,
        "Failed to install plugin " ++ jsToString config.name ++ ": " ++ e.msg⟩, st)
    else (.error e, st)
  | ok => ok

/-- PluginManager.getPlugin. -/
def getPlugin (plugins : Registry) (name : String) : Option PluginCfg :=
  mapGet plugins (.strv name)

/-- PluginManager.listPlugins. -/
def listPlugins (plugins : Registry) : List PluginCfg :=
  plugins.map (·.2)

/-! #### Hook execution

For executeHook a plugin is modelled by what calling its optional handler for
the event (and its optional onError handler) does: return a non-promise
value, return a promise that resolves or rejects, or throw synchronously. -/

inductive CallOutcome : Type where
  | retOther
  | retPromise (resolves : Bool)
  | throwsSync
deriving DecidableEq

structure HPlug : Type where
  name : String
  hook : Option CallOutcome
  onError : Option CallOutcome
deriving DecidableEq

/-- Console events of executeHook: a handler invocation, the per-plugin
failure warning, an onError invocation with its context string, and the
onError-also-failed error log. -/
inductive HEv : Type where
  | hookInvoked (plugin : String)
  | warnLogged (plugin : String)
  | onErrorInvoked (plugin : String) (context : String)
  | errLogged (plugin : String)
deriving DecidableEq

/-- The catch chain attached to a hook promise that rejects: warn, then call
onError when defined; a synchronous throw from onError is caught and logged,
a promise returned by onError is adopted, so its rejection reaches the settle
barrier unlogged.  Returns the events of the chain and whether the attached
promise finally resolves. -/
def rejectedHookSettle (plugin : HPlug) (hookName : String) : List HEv × Bool :=
  let warn := [HEv.warnLogged plugin.name]
  match plugin.onError with
  | none => (warn, true)
  | some oe =>
    let inv := HEv.onErrorInvoked plugin.name ("hook:" ++ hookName)
    match oe with
    | .throwsSync => (warn ++ [inv, HEv.errLogged plugin.name], true)
    | .retOther => (warn ++ [inv], true)
    | .retPromise ok => (warn ++ [inv], ok)

/-- One iteration of the executeHook plugin loop: the synchronously emitted
events, and the promises pushed for the settle barrier, each with the events
its continuation will emit and its final resolution flag. -/
def loopStep (hookName : String) (plugin : HPlug) :
    List HEv × List (List HEv × Bool) :=
  match plugin.hook with
  | none => ([], [])
  | some oc =>
    let inv := [HEv.hookInvoked plugin.name]
    match oc with
    | .retOther => (inv, [])
    | .retPromise true => (inv, [([], true)])
    | .retPromise false => (inv, [rejectedHookSettle plugin hookName])
    | .throwsSync =>
      let warn := HEv.warnLogged plugin.name
      match plugin.onError with
      | none => (inv ++ [warn], [])
      | some oe =>
        let invE := HEv.onErrorInvoked plugin.name ("hook:" ++ hookName)
        match oe with
        | .throwsSync => (inv ++ [warn, invE, HEv.errLogged plugin.name], [])
        | .retOther => (inv ++ [warn, invE], [])
        | .retPromise ok => (inv ++ [warn, invE], [([], ok)])

/-- The console trace of an executeHook call: the loop-phase events of every
plugin in registry order, followed by the settle-phase events of the pushed
promises in push order. -/
def executeHookEvents (plugins : List HPlug) (hookName : String) : List HEv :=
  let steps := plugins.map (loopStep hookName)
  (steps.map Prod.fst).flatten ++ ((steps.map Prod.snd).flatten.map Prod.fst).flatten

/-- PluginManager.executeHook: run the loop and await
Promise.allSettled(promises), which resolves regardless of the individual
promise outcomes, so the call always resolves, carrying its console trace. -/
def executeHook (plugins : List HPlug) (hookName : String) :
    Except JsThrown (List HEv) :=
  .ok (executeHookEvents plugins hookName)

/-! ### Template materialization pipeline (src/core/project-generator.ts)

The file-writer and process-runner collaborators are ambient effects; their
outcomes for one generate call are passed in as an effects record, and the
pipeline's observable actions are collected in an event trace. -/

/-- A field of the manifest document: string, boolean, or a string map. -/
inductive MField : Type where
  | strF : String → MField
  | boolF : Bool → MField
  | mapF : List (String × String) → MField
deriving DecidableEq

abbrev Manifest : Type := List (String × MField)

/-- The three dependency maps of a template.  The source type (Dependencies
in types/index.d.ts) spells the development map devDepencies. -/
structure Dependencies : Type where
  dependencies : Option (List (String × String))
  devDepencies : Option (List (String × String))
  peerDependencies : Option (List (String × String))

structure Template : Type where
  name : String
  dependencies : Option Dependencies
  scripts : Option (List (String × String))
  postInstall : Option (String → AnswerSet → Except JsThrown Unit)

structure GenConfig : Type where
  projectName : String
  template : String
  answers : AnswerSet
  outputPath : String

/-- node:path join as used here: parent slash child. -/
def pathJoin (a b : String) : String := a ++ "/" ++ b

/-- The strict comparison value === false on a possibly-undefined property
read (undefined is not === false). -/
def isLiteralFalse : Option JsVal → Bool
  | some (.boolv false) => true
  | _ => false

/-- Observable events of one generate call. -/
inductive GEv : Type where
  | dirEnsured (path : String)
  | filesGenerated
  | pkgWritten (path : String) (manifest : Manifest)
  | npmInstallRun (cwd : String)
  | manualHintLogged
  | postInstallInvoked (path : String) (answers : AnswerSet)

/-- Outcomes of the ambient effects during one generate call: directory
creation, the file-generation loop, the manifest write, and the npm install
command. -/
structure GenEffects : Type where
  ensureDirRes : Except JsThrown Unit
  filesRes : Except JsThrown Unit
  pkgWriteRes : Except JsThrown Unit
  npmRes : Except JsThrown Unit

/-- The manifest document composed by ProjectGenerator.generatePackageJson,
in source field order.  The optional chains template.dependencies?.«map» all
default to the empty map; the source reads the development map through the
type's devDepencies spelling. -/
def packageJsonDoc (template : Template) (config : GenConfig) : Manifest :=
  [("name", .strF config.projectName),
   ("version", .strF "0.1.0"),
   ("private", .boolF true),
   ("scripts", .mapF (template.scripts.getD [])),
   ("dependencies", .mapF ((template.dependencies.bind (·.dependencies)).getD [])),
   ("devDependencies", .mapF ((template.dependencies.bind (·.devDepencies)).getD [])),
   ("peerDependencies", .mapF ((template.dependencies.bind (·.peerDependencies)).getD []))]

/-- ProjectGenerator.generateFiles, at the granularity the claims need: the
loop either succeeds as a whole or its first failure is wrapped by the
method's catch as a filesystem error (when it is an Error instance). -/
def generateFiles (filesRes : Except JsThrown Unit) : List GEv × Except JsThrown Unit :=
  match filesRes with
  | .ok _ => ([GEv.filesGenerated], .ok ())
  | .error e =>
    if e.isError then
      ([], .error ⟨true, .filesystem, "Failed to generate files: " ++ e.msg⟩)
    else ([], .error e)

/-- ProjectGenerator.generatePackageJson: compose the document and write it
to projectPath/package.json; a write failure that is an Error is wrapped as a
filesystem error. -/
def generatePackageJson (template : Template) (config : GenConfig)
    (projectPath : String) (pkgWriteRes : Except JsThrown Unit) :
    List GEv × Except JsThrown Unit :=
  match pkgWriteRes with
  | .ok _ =>
    ([GEv.pkgWritten (pathJoin projectPath "package.json") (packageJsonDoc template config)],
     .ok ())
  | .error e =>
    if e.isError then
      ([], .error ⟨true, .filesystem, "Failed to generate package.json: " ++ e.msg⟩)
    else ([], .error e)

/-- ProjectGenerator.installDependencies: run npm install in the project
directory.  A failure that is an Error instance is re-thrown as a dependency
error; only a non-Error failure falls through to the manual-recovery hint and
a normal return. -/
def installDependencies (projectPath : String) (npmRes : Except JsThrown Unit) :
    List GEv × Except JsThrown Unit :=
  match npmRes with
  | .ok _ => ([GEv.npmInstallRun projectPath], .ok ())
  | .error e =>
    if e.isError then
      ([GEv.npmInstallRun projectPath],
       .error ⟨true, .dependency, "Failed to install dependencies: " ++ e.msg⟩)
    else ([GEv.npmInstallRun projectPath, GEv.manualHintLogged], .ok ())

/-- The catch block of ProjectGenerator.generate: re-wrap an Error instance
as a filesystem-category generation failure, re-throw anything else as-is. -/
def generateCatch (body : List GEv × Except JsThrown Unit) :
    List GEv × Except JsThrown Unit :=
  match body with
  | (evs, .ok _) => (evs, .ok ())
  | (evs, .error e) =>
    if e.isError then
      (evs, .error ⟨true, .filesystem, "Failed to generate project: " ++ e.msg⟩)
    else (evs, .error e)

theorem generateCatch_fst (body : List GEv × Except JsThrown Unit) :
    (generateCatch body).1 = body.1 := by
  obtain ⟨evs, r⟩ := body
  cases r with
  | ok _ => rfl
  | error e =>
    show (if e.isError then
        (evs, Except.error ⟨true, .filesystem, "Failed to generate project: " ++ e.msg⟩)
      else (evs, Except.error e)).1 = evs
    split <;> rfl

theorem generateCatch_snd_error (evs : List GEv) (e : JsThrown) :
    (generateCatch (evs, .error e)).2 =
      (if e.isError then
        Except.error ⟨true, .filesystem, "Failed to generate project: " ++ e.msg⟩
      else Except.error e) := by
  show (if e.isError then
      (evs, Except.error (⟨true, .filesystem, "Failed to generate project: " ++ e.msg⟩ : JsThrown))
    else (evs, Except.error e)).2 = _
  split <;> rfl

/-- ProjectGenerator.generate: ensure the project directory, generate files,
write the manifest, conditionally install dependencies, run the postInstall
hook; the surrounding catch re-wraps any Error as a filesystem-category
generation failure. -/
def generate (template : Template) (config : GenConfig) (fx : GenEffects) :
    List GEv × Except JsThrown Unit :=
  let projectPath := pathJoin config.outputPath config.projectName
  let body : List GEv × Except JsThrown Unit :=
    match fx.ensureDirRes with
    | .error e => ([], .error e)
    | .ok _ =>
      let evDir := [GEv.dirEnsured projectPath]
      match generateFiles fx.filesRes with
      | (evF, .error e) => (evDir ++ evF, .error e)
      | (evF, .ok _) =>
        match generatePackageJson template config projectPath fx.pkgWriteRes with
        | (evP, .error e) => (evDir ++ evF ++ evP, .error e)
        | (evP, .ok _) =>
          let pre := evDir ++ evF ++ evP
          let installStep : List GEv × Except JsThrown Unit :=
            if template.dependencies.isSome
                && !(isLiteralFalse (jsGet config.answers "installDeps")) then
              installDependencies projectPath fx.npmRes
            else ([], .ok ())
          match installStep with
          | (evI, .error e) => (pre ++ evI, .error e)
          | (evI, .ok _) =>
            match template.postInstall with
            | none => (pre ++ evI, .ok ())
            | some handler =>
              (pre ++ evI ++ [GEv.postInstallInvoked projectPath config.answers],
               handler projectPath config.answers)
  generateCatch body

/-! ### Theorems about the prompt resolution engine -/

/-- Unfolding equation of the prompt loop at a cons cell. -/
theorem processPrompts_cons (p : Prompt) (rest : List Prompt)
    (answers : AnswerSet) (st : RState) :
    processPrompts (p :: rest) answers st =
      if (p.whenP.map (fun w => !w answers)).getD false then
        processPrompts rest answers st
      else if (jsGet answers p.name).isSome then
        processPrompts rest answers st
      else
        match processPrompt p answers st with
        | .error e => .error e
        | .ok (answer, st') =>
          processPrompts rest
            (jsSet answers p.name
              (match p.transform with | some t => t answer | none => answer)) st' :=
  rfl

/-- The prompt loop never overwrites a key that is already present: whatever
value a key holds when the loop starts, it holds in the loop's output. -/
theorem processPrompts_preserves (prompts : List Prompt) :
    ∀ (answers : AnswerSet) (st : RState) (k : String) (res : AnswerSet) (st' : RState),
      (jsGet answers k).isSome →
      processPrompts prompts answers st = .ok (res, st') →
      jsGet res k = jsGet answers k := by
  induction prompts with
  | nil =>
    intro answers st k res st' _ h
    simp only [processPrompts, Except.ok.injEq, Prod.mk.injEq] at h
    rw [← h.1]
  | cons p rest ih =>
    intro answers st k res st' hk h
    unfold processPrompts at h
    split at h
    · exact ih answers st k res st' hk h
    · split at h
      · exact ih answers st k res st' hk h
      · rename_i hseen
        split at h
        · cases h
        · rename_i a st2 hp
          have hne : p.name ≠ k := by
            intro he
            rw [he] at hseen
            simp [hk] at hseen
          have hk2 : (jsGet (jsSet answers p.name
              (match p.transform with | some t => t a | none => a)) k).isSome := by
            rw [jsGet_jsSet_ne _ _ _ _ hne]
            exact hk
          have := ih _ _ k res st' hk2 h
          rw [this, jsGet_jsSet_ne _ _ _ _ hne]

/-- A key that is absent stays absent through the loop provided every prompt
carrying that name is hidden by a constantly-false visibility predicate. -/
theorem processPrompts_absent (prompts : List Prompt) :
    ∀ (answers : AnswerSet) (st : RState) (k : String) (res : AnswerSet) (st' : RState),
      jsGet answers k = none →
      (∀ q ∈ prompts, q.name = k → ∃ w, q.whenP = some w ∧ ∀ a, w a = false) →
      processPrompts prompts answers st = .ok (res, st') →
      jsGet res k = none := by
  induction prompts with
  | nil =>
    intro answers st k res st' hk _ h
    simp only [processPrompts, Except.ok.injEq, Prod.mk.injEq] at h
    rw [← h.1]
    exact hk
  | cons p rest ih =>
    intro answers st k res st' hk hall h
    unfold processPrompts at h
    split at h
    · exact ih answers st k res st' hk (fun q hq => hall q (List.mem_cons_of_mem p hq)) h
    · split at h
      · exact ih answers st k res st' hk (fun q hq => hall q (List.mem_cons_of_mem p hq)) h
      · rename_i hvis hseen
        split at h
        · cases h
        · rename_i a st2 hp
          have hne : p.name ≠ k := by
            intro he
            obtain ⟨w, hw, hwf⟩ := hall p (List.mem_cons_self p rest) he
            rw [hw] at hvis
            simp [hwf answers] at hvis
          have hk2 : jsGet (jsSet answers p.name
              (match p.transform with | some t => t a | none => a)) k = none := by
            rw [jsGet_jsSet_ne _ _ _ _ hne]
            exact hk
          exact ih _ _ k res st' hk2 (fun q hq => hall q (List.mem_cons_of_mem p hq)) h

/-- The multiselect resolution as the claim words it: the single input line
is split on commas, each token is parsed as a 1-based index, indices outside
1..choiceCount are silently discarded, and the remaining tokens map to the
corresponding choices' value fields in the order the user typed them,
duplicates preserved. -/
def claimedMultiSelect (choices : List Choice) (line : String) : List JsVal :=
  (jsSplitComma line).filterMap (fun tok =>
    match jsParseInt (jsTrim tok) with
    | some n =>
      if 1 ≤ n ∧ n ≤ (choices.length : Int) then
        some ((choices.getD (n - 1).toNat ⟨"", .undefinedV, none⟩).value)
      else none
    | none => none)

/-- The 0-based filter-then-map pipeline of the source equals the 1-based
discard-and-map description, token by token. -/
theorem multiselect_tokens (choices : List Choice) (toks : List String) :
    ((toks.map msIndex).filter (msInRange choices)).map (msValue choices) =
    toks.filterMap (fun tok =>
      match jsParseInt (jsTrim tok) with
      | some n =>
        if 1 ≤ n ∧ n ≤ (choices.length : Int) then
          some ((choices.getD (n - 1).toNat ⟨"", .undefinedV, none⟩).value)
        else none
      | none => none) := by
  induction toks with
  | nil => rfl
  | cons t ts ih =>
    simp only [List.map_cons, List.filter_cons, List.filterMap_cons]
    cases hp : jsParseInt (jsTrim t) with
    | none => simpa [msIndex, msInRange, hp] using ih
    | some n =>
      by_cases hin : 1 ≤ n ∧ n ≤ (choices.length : Int)
      · have h0 : 0 ≤ n - 1 ∧ n - 1 < (choices.length : Int) := by omega
        have h1 : 1 ≤ n ∧ n - 1 < (choices.length : Int) := by omega
        simpa [msIndex, hp, msInRange, msValue, h0, h1, hin] using ih
      · have h0 : ¬ (0 ≤ n - 1 ∧ n - 1 < (choices.length : Int)) := by omega
        have h1 : ¬ (1 ≤ n ∧ n - 1 < (choices.length : Int)) := by omega
        simpa [msIndex, hp, msInRange, msValue, h0, h1, hin] using ih

/-- A confirm prompt with a constantly-false visibility predicate and a
configured default, used to refute claim C4 in defaults mode. -/
def cx4Prompt : Prompt :=
  ⟨"x", .confirm, "m", some (.boolv true), none, none, some (fun _ => false), none⟩

/-- C4, counterexample: in skip-interactive defaults mode (the yes flag), a
prompt whose visibility predicate evaluates to false against the accumulated
answers (here the empty seed) still appears as a key in the output answer
set, because fillDefaults never consults the predicate. -/
theorem C4_cex_defaults_mode_ignores_visibility :
    (cx4Prompt.whenP.getD (fun _ => true)) [] = false ∧
    collectAnswers ⟨[cx4Prompt], false⟩ none ⟨none, true, false, false⟩ ⟨[], []⟩ =
      .ok ([("x", .boolv true)], ⟨[], []⟩) ∧
    jsGet [("x", JsVal.boolv true)] "x" = some (.boolv true) :=
  ⟨rfl, rfl, rfl⟩

/-- C4, amended: in interactive mode the prompt loop skips a prompt whose
visibility predicate evaluates false against the answers accumulated so far —
it consumes no input and writes no key, so a never-visible unseeded name is
absent from the loop's output; in skip-interactive defaults mode, however,
the predicate is ignored and a hidden prompt with a configured default still
receives its default value. -/
theorem C4_amended_visibility_skip :
    (∀ (p : Prompt) (rest : List Prompt) (answers : AnswerSet) (st : RState)
       (w : AnswerSet → Bool), p.whenP = some w → w answers = false →
      processPrompts (p :: rest) answers st = processPrompts rest answers st) ∧
    (∀ (prompts : List Prompt) (answers : AnswerSet) (st : RState) (k : String)
       (res : AnswerSet) (st' : RState),
      jsGet answers k = none →
      (∀ q ∈ prompts, q.name = k → ∃ w, q.whenP = some w ∧ ∀ a, w a = false) →
      processPrompts prompts answers st = .ok (res, st') →
      jsGet res k = none) ∧
    (∀ (p : Prompt) (answers : AnswerSet) (v : JsVal),
      jsGet answers p.name = none → p.defaultVal = some v →
      jsGet (fillDefaults [p] answers) p.name = some v) := by
  refine ⟨?_, processPrompts_absent, ?_⟩
  · intro p rest answers st w hw hwf
    rw [processPrompts_cons, if_pos]
    rw [hw]
    simp [hwf]
  · intro p answers v hnone hd
    unfold fillDefaults
    simp only [List.foldl_cons, List.foldl_nil, hnone, Option.isNone_none, hd,
      Option.isSome_some, Bool.and_self, if_pos]
    exact jsGet_jsSet_self answers p.name v

/-- C4, witness: the amended theorem applied at a hidden prompt over the
empty seed, in both modes. -/
theorem C4_amended_visibility_skip_witness :
    processPrompts [cx4Prompt] [] ⟨[], []⟩ = processPrompts [] [] ⟨[], []⟩ ∧
    jsGet (fillDefaults [cx4Prompt] []) "x" = some (.boolv true) :=
  ⟨C4_amended_visibility_skip.1 cx4Prompt [] [] ⟨[], []⟩ (fun _ => false) rfl rfl,
   C4_amended_visibility_skip.2.2 cx4Prompt [] (.boolv true) rfl rfl⟩

/-- A confirm prompt with a truthy configured default, used against claim C5. -/
def cx5Prompt : Prompt :=
  ⟨"ok", .confirm, "Sure?", some (.boolv true), none, none, none, none⟩

/-- C5, counterexample: for the input line "y " the trimmed, lowercased
input is the affirmative token y, so the claim predicts true, but the
resolved answer is false — the handler lowercases without trimming. -/
theorem C5_cex_untrimmed_input :
    ["y", "yes", "true", "1"].contains (jsToLower (jsTrim "y ")) = true ∧
    handleConfirmPrompt cx5Prompt ⟨["y "], []⟩ =
      .ok (.boolv false, ⟨[], ["Sure? (Y/n): "]⟩) :=
  ⟨rfl, rfl⟩

/-- C5, amended: the resolved answer of a confirm prompt is true iff the
lowercased — but not trimmed — input line is one of y, yes, true, 1; every
other input, including the empty line, resolves to false, and the configured
default is never substituted (the prompt argument is arbitrary and the value
does not depend on it). -/
theorem C5_amended_confirm_tokens (p : Prompt) (line : String)
    (rest : List String) (asked : List String) :
    handleConfirmPrompt p ⟨line :: rest, asked⟩ =
      .ok (.boolv (["y", "yes", "true", "1"].contains (jsToLower line)),
        ⟨rest, asked ++ [p.message ++ confirmDefaultHint p ++ ": "]⟩) :=
  rfl

/-- C6: a prompt whose name is already present in the accumulated answer set
is skipped entirely — the loop step equals the loop without the prompt (no
line is read, no state changes), and the existing value survives to the
output unchanged (first write wins). -/
theorem C6_preseeded_prompt_skipped (p : Prompt) (rest : List Prompt)
    (answers : AnswerSet) (st : RState)
    (h : (jsGet answers p.name).isSome) :
    processPrompts (p :: rest) answers st = processPrompts rest answers st ∧
    (∀ (res : AnswerSet) (st' : RState),
      processPrompts (p :: rest) answers st = .ok (res, st') →
      jsGet res p.name = jsGet answers p.name) := by
  have hstep : processPrompts (p :: rest) answers st = processPrompts rest answers st := by
    rw [processPrompts_cons]
    by_cases hv : (p.whenP.map (fun w => !w answers)).getD false
    · rw [if_pos hv]
    · rw [if_neg hv, if_pos h]
  refine ⟨hstep, ?_⟩
  intro res st' hrun
  rw [hstep] at hrun
  exact processPrompts_preserves rest answers st p.name res st' h hrun

/-- An input prompt whose name is pre-seeded by the command line. -/
def cx6Prompt : Prompt :=
  ⟨"projectName", .input, "Project name", none, none, none, none, none⟩

/-- C6, witness: with projectName pre-seeded, the prompt is skipped and its
value survives. -/
theorem C6_preseeded_prompt_skipped_witness :
    processPrompts [cx6Prompt] [("projectName", .strv "app")] ⟨["zzz"], []⟩ =
      processPrompts [] [("projectName", .strv "app")] ⟨["zzz"], []⟩ ∧
    jsGet [("projectName", JsVal.strv "app")] "projectName" = some (.strv "app") :=
  ⟨(C6_preseeded_prompt_skipped cx6Prompt [] [("projectName", .strv "app")]
      ⟨["zzz"], []⟩ rfl).1, rfl⟩

/-- C7: a multiselect prompt reads one line and resolves to the 1-based
in-range tokens' choice values in typed order, duplicates preserved — the
source's 0-based filter-and-map pipeline equals the claimed description. -/
theorem C7_multiselect_order_as_typed (p : Prompt) (choices : List Choice)
    (line : String) (rest : List String) (asked : List String)
    (h : p.choices = some choices) :
    handleMultiSelectPrompt p ⟨line :: rest, asked⟩ =
      .ok (.arrv (claimedMultiSelect choices line),
        ⟨rest, asked ++ ["\nSelect options: "]⟩) := by
  have hrun : handleMultiSelectPrompt p ⟨line :: rest, asked⟩ =
      .ok (.arrv (((jsSplitComma line).map msIndex).filter
          (msInRange choices) |>.map (msValue choices)),
        ⟨rest, asked ++ ["\nSelect options: "]⟩) := by
    unfold handleMultiSelectPrompt
    rw [h]
    rfl
  rw [hrun, multiselect_tokens]
  rfl

/-- Three choices for the multiselect example, with distinct values. -/
def cx7Choices : List Choice :=
  [⟨"A", .numv 10, none⟩, ⟨"B", .numv 20, none⟩, ⟨"C", .numv 30, none⟩]

def cx7Prompt : Prompt :=
  ⟨"feats", .multiselect, "Pick", none, some cx7Choices, none, none, none⟩

/-- C7, witness: with 3 choices, the input 2,5,1 resolves to the second and
first choices' values in typed order, the out-of-range 5 dropped. -/
theorem C7_multiselect_order_as_typed_witness :
    handleMultiSelectPrompt cx7Prompt ⟨["2,5,1"], []⟩ =
      .ok (.arrv [.numv 20, .numv 10], ⟨[], ["\nSelect options: "]⟩) ∧
    claimedMultiSelect cx7Choices "2,5,1" = [.numv 20, .numv 10] := by
  constructor
  · rw [C7_multiselect_order_as_typed cx7Prompt cx7Choices "2,5,1" [] [] rfl]
    rfl
  · rfl

/-! ### Theorems about the plugin hook orchestrator -/

/-- A plugin's hook handler fails: it throws synchronously or returns a
promise that rejects. -/
def hookFails (p : HPlug) : Prop :=
  p.hook = some .throwsSync ∨ p.hook = some (.retPromise false)

/-- An event emitted in a plugin's loop phase is in the executeHook trace. -/
theorem mem_trace_of_loop (ps : List HPlug) (hookName : String) (p : HPlug)
    (hp : p ∈ ps) (e : HEv) (he : e ∈ (loopStep hookName p).1) :
    e ∈ executeHookEvents ps hookName := by
  unfold executeHookEvents
  apply List.mem_append_left
  rw [List.mem_flatten]
  exact ⟨(loopStep hookName p).1,
    by rw [List.mem_map]; exact ⟨loopStep hookName p, List.mem_map_of_mem _ hp, rfl⟩, he⟩

/-- An event emitted by the continuation of a pushed promise is in the
executeHook trace. -/
theorem mem_trace_of_settle (ps : List HPlug) (hookName : String) (p : HPlug)
    (hp : p ∈ ps) (evs : List HEv) (b : Bool)
    (hpr : (evs, b) ∈ (loopStep hookName p).2) (e : HEv) (he : e ∈ evs) :
    e ∈ executeHookEvents ps hookName := by
  unfold executeHookEvents
  apply List.mem_append_right
  rw [List.mem_flatten]
  refine ⟨evs, ?_, he⟩
  rw [List.mem_map]
  refine ⟨(evs, b), ?_, rfl⟩
  rw [List.mem_flatten]
  exact ⟨(loopStep hookName p).2,
    by rw [List.mem_map]; exact ⟨loopStep hookName p, List.mem_map_of_mem _ hp, rfl⟩, hpr⟩

/-- C2, counterexample: one installed plugin whose handler returns a
rejecting promise and whose onError also returns a rejecting promise.  The
handler failure is warned and onError is invoked with the hook context, and
executeHook still resolves — but the onError failure is swallowed by the
settle barrier without being logged, so the claim's "an onError failure
itself logged" is false at this input. -/
theorem C2_cex_onError_rejection_unlogged :
    executeHook [⟨"px", some (.retPromise false), some (.retPromise false)⟩]
        "beforeGenerate" =
      .ok [.hookInvoked "px", .warnLogged "px",
           .onErrorInvoked "px" "hook:beforeGenerate"] ∧
    HEv.errLogged "px" ∉
      executeHookEvents [⟨"px", some (.retPromise false), some (.retPromise false)⟩]
        "beforeGenerate" :=
  ⟨rfl, by decide⟩

/-- C2, amended: executeHook invokes the matching handler of each installed
plugin that defines one; a handler failure — synchronous throw or rejected
promise — is isolated to that plugin: it is logged as a warning, forwarded to
that plugin's onError with context hook:eventName when one is defined, and a
synchronously-thrown onError failure is logged and swallowed (an onError
failure via a rejected promise is swallowed by the settle barrier without
logging); no failure prevents any other plugin's handler from running, and
the executeHook call itself always resolves after the all-settled join. -/
theorem C2_amended_hook_isolation (ps : List HPlug) (hookName : String) :
    executeHook ps hookName = .ok (executeHookEvents ps hookName) ∧
    (∀ p ∈ ps, p.hook.isSome → HEv.hookInvoked p.name ∈ executeHookEvents ps hookName) ∧
    (∀ p ∈ ps, hookFails p →
      HEv.warnLogged p.name ∈ executeHookEvents ps hookName ∧
      (p.onError.isSome →
        HEv.onErrorInvoked p.name ("hook:" ++ hookName) ∈ executeHookEvents ps hookName) ∧
      (p.onError = some .throwsSync →
        HEv.errLogged p.name ∈ executeHookEvents ps hookName)) := by
  refine ⟨rfl, ?_, ?_⟩
  · intro p hp hh
    apply mem_trace_of_loop ps hookName p hp
    obtain ⟨name, hook, onError⟩ := p
    cases hook with
    | none => simp at hh
    | some oc =>
      cases oc with
      | retOther => simp [loopStep]
      | retPromise b => cases b <;> simp [loopStep]
      | throwsSync =>
        cases onError with
        | none => simp [loopStep]
        | some oe => cases oe <;> simp [loopStep]
  · intro p hp hf
    obtain ⟨name, hook, onError⟩ := p
    rcases hf with hf | hf <;> simp only at hf <;> subst hf
    · -- synchronous throw: everything is emitted in the loop phase
      refine ⟨?_, ?_, ?_⟩
      · apply mem_trace_of_loop ps hookName _ hp
        cases onError with
        | none => simp [loopStep]
        | some oe => cases oe <;> simp [loopStep]
      · intro ho
        apply mem_trace_of_loop ps hookName _ hp
        cases onError with
        | none => simp at ho
        | some oe => cases oe <;> simp [loopStep]
      · intro ho
        simp only [Option.some.injEq] at ho
        apply mem_trace_of_loop ps hookName _ hp
        rw [ho]
        simp [loopStep]
    · -- rejected promise: the catch chain emits in the settle phase
      have hpush : (rejectedHookSettle ⟨name, some (.retPromise false), onError⟩ hookName)
          ∈ (loopStep hookName ⟨name, some (.retPromise false), onError⟩).2 := by
        simp [loopStep]
      refine ⟨?_, ?_, ?_⟩
      · apply mem_trace_of_settle ps hookName _ hp _ _ hpush
        cases onError with
        | none => simp [rejectedHookSettle]
        | some oe => cases oe <;> simp [rejectedHookSettle]
      · intro ho
        apply mem_trace_of_settle ps hookName _ hp _ _ hpush
        cases onError with
        | none => simp at ho
        | some oe => cases oe <;> simp [rejectedHookSettle]
      · intro ho
        simp only [Option.some.injEq] at ho
        apply mem_trace_of_settle ps hookName _ hp _ _ hpush
        rw [ho]
        simp [rejectedHookSettle]

/-- C2, witness: three installed plugins where the second one's handler
throws — the first and third handlers still execute, the failure is warned,
and the call resolves. -/
theorem C2_amended_hook_isolation_witness :
    executeHook [⟨"alpha", some .retOther, none⟩,
                 ⟨"beta", some .throwsSync, none⟩,
                 ⟨"gamma", some (.retPromise true), none⟩] "beforeGenerate" =
      .ok (executeHookEvents [⟨"alpha", some .retOther, none⟩,
                 ⟨"beta", some .throwsSync, none⟩,
                 ⟨"gamma", some (.retPromise true), none⟩] "beforeGenerate") ∧
    HEv.hookInvoked "alpha" ∈
      executeHookEvents [⟨"alpha", some .retOther, none⟩,
                 ⟨"beta", some .throwsSync, none⟩,
                 ⟨"gamma", some (.retPromise true), none⟩] "beforeGenerate" ∧
    HEv.hookInvoked "gamma" ∈
      executeHookEvents [⟨"alpha", some .retOther, none⟩,
                 ⟨"beta", some .throwsSync, none⟩,
                 ⟨"gamma", some (.retPromise true), none⟩] "beforeGenerate" ∧
    HEv.warnLogged "beta" ∈
      executeHookEvents [⟨"alpha", some .retOther, none⟩,
                 ⟨"beta", some .throwsSync, none⟩,
                 ⟨"gamma", some (.retPromise true), none⟩] "beforeGenerate" :=
  ⟨(C2_amended_hook_isolation _ "beforeGenerate").1,
   (C2_amended_hook_isolation _ "beforeGenerate").2.1
     ⟨"alpha", some .retOther, none⟩ (by decide) (by decide),
   (C2_amended_hook_isolation _ "beforeGenerate").2.1
     ⟨"gamma", some (.retPromise true), none⟩ (by decide) (by decide),
   ((C2_amended_hook_isolation _ "beforeGenerate").2.2
     ⟨"beta", some .throwsSync, none⟩ (by decide) (Or.inl (by decide))).1⟩

/-! ### Theorems about the template materialization pipeline -/

/-- The manifest document as claim C9 describes it: name, version 0.1.0,
private true, the template's scripts map or the empty map, and the template's
three dependency maps each defaulting to the empty map, in that field order. -/
def claimedManifest (t : Template) (c : GenConfig) : Manifest :=
  [("name", .strF c.projectName),
   ("version", .strF "0.1.0"),
   ("private", .boolF true),
   ("scripts", .mapF (match t.scripts with | some s => s | none => [])),
   ("dependencies", .mapF (match t.dependencies with
      | some d => (match d.dependencies with | some m => m | none => [])
      | none => [])),
   ("devDependencies", .mapF (match t.dependencies with
      | some d => (match d.devDepencies with | some m => m | none => [])
      | none => [])),
   ("peerDependencies", .mapF (match t.dependencies with
      | some d => (match d.peerDependencies with | some m => m | none => [])
      | none => []))]

/-- C9: when the manifest write succeeds, generatePackageJson writes to
projectPath/package.json exactly the claimed document — the composed
package.json equals the claimed field list, field order and defaults
included, for every template and generator configuration. -/
theorem C9_manifest_document (t : Template) (c : GenConfig)
    (projectPath : String) (res : Except JsThrown Unit) (hres : res = .ok ()) :
    generatePackageJson t c projectPath res =
      ([GEv.pkgWritten (pathJoin projectPath "package.json") (packageJsonDoc t c)],
       .ok ()) ∧
    packageJsonDoc t c = claimedManifest t c := by
  subst hres
  refine ⟨rfl, ?_⟩
  obtain ⟨tn, tdeps, tscr, tpost⟩ := t
  cases tdeps with
  | none => cases tscr <;> simp [packageJsonDoc, claimedManifest]
  | some d =>
    obtain ⟨d1, d2, d3⟩ := d
    cases d1 <;> cases d2 <;> cases d3 <;> cases tscr <;>
      simp [packageJsonDoc, claimedManifest]

/-- A template and configuration exercising every manifest default. -/
def cx9Template : Template :=
  ⟨"react", some ⟨some [("react", "^18.0.0")], none, none⟩,
   some [("dev", "vite")], none⟩

def cx9Config : GenConfig := ⟨"app", "react", [], "/w"⟩

/-- C9, witness: the manifest written for a concrete template. -/
theorem C9_manifest_document_witness :
    generatePackageJson cx9Template cx9Config "/w/app" (.ok ()) =
      ([GEv.pkgWritten "/w/app/package.json" (packageJsonDoc cx9Template cx9Config)],
       .ok ()) ∧
    packageJsonDoc cx9Template cx9Config = claimedManifest cx9Template cx9Config :=
  ⟨(C9_manifest_document cx9Template cx9Config "/w/app" (.ok ()) rfl).1,
   (C9_manifest_document cx9Template cx9Config "/w/app" (.ok ()) rfl).2⟩

/-- A template with a dependency map and a declared postInstall handler, a
configuration whose answers do not set installDeps, and effect outcomes where
only the npm install command fails (with an Error instance). -/
def cx1Template : Template :=
  ⟨"react", some ⟨some [("react", "^18.0.0")], none, none⟩, none,
   some (fun _ _ => .ok ())⟩

def cx1Config : GenConfig := ⟨"app", "react", [], "/w"⟩

def cx1Fx : GenEffects := ⟨.ok (), .ok (), .ok (), .error ⟨true, .other, "npm exploded"⟩⟩

/-- C1, counterexample: the npm failure is re-thrown as a dependency error,
which the generate catch-all wraps into a filesystem-category error — the
generate call aborts, the declared postInstall handler is never invoked, and
the manual-recovery hint is never printed. -/
theorem C1_cex_npm_failure_fatal :
    (generate cx1Template cx1Config cx1Fx).2 =
      .error ⟨true, .filesystem,
        "Failed to generate project: Failed to install dependencies: npm exploded"⟩ ∧
    (∀ (q : String) (a : AnswerSet),
      GEv.postInstallInvoked q a ∉ (generate cx1Template cx1Config cx1Fx).1) ∧
    GEv.manualHintLogged ∉ (generate cx1Template cx1Config cx1Fx).1 := by
  refine ⟨rfl, ?_, ?_⟩
  · intro q a
    show GEv.postInstallInvoked q a ∉
      [GEv.dirEnsured "/w/app", .filesGenerated,
       .pkgWritten "/w/app/package.json" (packageJsonDoc cx1Template cx1Config),
       .npmInstallRun "/w/app"]
    simp
  · show GEv.manualHintLogged ∉
      [GEv.dirEnsured "/w/app", .filesGenerated,
       .pkgWritten "/w/app/package.json" (packageJsonDoc cx1Template cx1Config),
       .npmInstallRun "/w/app"]
    simp

/-- C1, amended: when the template declares dependencies and installDeps is
not false, a failure of the npm install command that is an Error instance is
fatal: installDependencies re-throws it as a dependency-category error, the
generate catch-all wraps that into a filesystem error, generate aborts, the
postInstall handler is not invoked and no manual-recovery hint is printed.
Only a non-Error failure value is non-fatal: then the hint is printed,
execution continues, and a declared postInstall handler still runs. -/
theorem C1_amended_install_failure_semantics (t : Template) (c : GenConfig)
    (fx : GenEffects) (e : JsThrown)
    (hdep : t.dependencies.isSome)
    (hflag : isLiteralFalse (jsGet c.answers "installDeps") = false)
    (hdir : fx.ensureDirRes = .ok ()) (hfiles : fx.filesRes = .ok ())
    (hpkg : fx.pkgWriteRes = .ok ()) (hnpm : fx.npmRes = .error e) :
    (e.isError = true →
      (generate t c fx).2 = .error ⟨true, .filesystem,
        "Failed to generate project: " ++ ("Failed to install dependencies: " ++ e.msg)⟩ ∧
      (∀ (q : String) (a : AnswerSet),
        GEv.postInstallInvoked q a ∉ (generate t c fx).1) ∧
      GEv.manualHintLogged ∉ (generate t c fx).1) ∧
    (e.isError = false →
      GEv.manualHintLogged ∈ (generate t c fx).1 ∧
      (t.postInstall = none → (generate t c fx).2 = .ok ()) ∧
      (∀ handler, t.postInstall = some handler →
        GEv.postInstallInvoked (pathJoin c.outputPath c.projectName) c.answers
          ∈ (generate t c fx).1)) := by
  obtain ⟨f1, f2, f3, f4⟩ := fx
  simp only at hdir hfiles hpkg hnpm
  subst hdir hfiles hpkg hnpm
  obtain ⟨tn, tdeps, tscr, tpost⟩ := t
  cases tdeps with
  | none => simp at hdep
  | some d =>
    constructor
    · intro he
      refine ⟨?_, ?_, ?_⟩ <;>
        simp [generate, generateCatch, generateCatch_fst, generateFiles,
          generatePackageJson, installDependencies, hflag, he]
    · intro he
      cases tpost with
      | none =>
        refine ⟨?_, ?_, ?_⟩ <;>
          simp [generate, generateCatch, generateCatch_fst, generateFiles,
            generatePackageJson, installDependencies, hflag, he]
      | some handler =>
        refine ⟨?_, ?_, ?_⟩
        · simp [generate, generateCatch_fst, generateFiles,
            generatePackageJson, installDependencies, hflag, he]
        · intro hc
          cases hc
        · intro h2 hh
          simp only [Option.some.injEq] at hh
          subst hh
          simp [generate, generateCatch_fst, generateFiles,
            generatePackageJson, installDependencies, hflag, he]

/-- C1, witness: the amended theorem at the concrete fatal scenario. -/
theorem C1_amended_install_failure_semantics_witness :
    (generate cx1Template cx1Config cx1Fx).2 =
      .error ⟨true, .filesystem,
        "Failed to generate project: Failed to install dependencies: npm exploded"⟩ ∧
    GEv.manualHintLogged ∉ (generate cx1Template cx1Config cx1Fx).1 := by
  have h := (C1_amended_install_failure_semantics cx1Template cx1Config cx1Fx
    ⟨true, .other, "npm exploded"⟩ rfl rfl rfl rfl rfl rfl).1 rfl
  exact ⟨h.1, h.2.2⟩

/-- A template whose postInstall handler rejects with an Error. -/
def cx3Template : Template :=
  ⟨"t", none, none, some (fun _ _ => .error ⟨true, .other, "boom"⟩)⟩

def cx3Config : GenConfig := ⟨"app", "t", [], "/w"⟩

def cx3Fx : GenEffects := ⟨.ok (), .ok (), .ok (), .ok ()⟩

/-- C3, counterexample: a postInstall rejection with an Error does abort
generate, but it does not propagate as-is — the generate catch-all re-wraps
it into a filesystem-category error with a generation-failure message. -/
theorem C3_cex_postinstall_rejection_wrapped :
    (generate cx3Template cx3Config cx3Fx).2 =
      .error ⟨true, .filesystem, "Failed to generate project: boom"⟩ ∧
    (generate cx3Template cx3Config cx3Fx).2 ≠ .error ⟨true, .other, "boom"⟩ := by
  have h1 : (generate cx3Template cx3Config cx3Fx).2 =
      .error ⟨true, .filesystem, "Failed to generate project: boom"⟩ := rfl
  refine ⟨h1, ?_⟩
  rw [h1]
  intro hcontra
  have h2 := Except.error.inj hcontra
  exact absurd h2 (by decide)

/-- C3, amended: after files and manifest are written, a declared postInstall
handler is invoked with (projectPath, answer set) and awaited, and a
rejection aborts generate (fatal, not isolated) — but a rejection that is an
Error instance is re-wrapped by generate's catch-all as a filesystem error
with message prefix "Failed to generate project: "; only a non-Error
rejection value propagates as-is. -/
theorem C3_amended_postinstall_fatal_wrapped (t : Template) (c : GenConfig)
    (fx : GenEffects) (handler : String → AnswerSet → Except JsThrown Unit)
    (e : JsThrown)
    (hdir : fx.ensureDirRes = .ok ()) (hfiles : fx.filesRes = .ok ())
    (hpkg : fx.pkgWriteRes = .ok ())
    (hnodeps : t.dependencies = none)
    (hpost : t.postInstall = some handler)
    (hrej : handler (pathJoin c.outputPath c.projectName) c.answers = .error e) :
    (generate t c fx).1 =
      [.dirEnsured (pathJoin c.outputPath c.projectName), .filesGenerated,
       .pkgWritten (pathJoin (pathJoin c.outputPath c.projectName) "package.json")
         (packageJsonDoc t c),
       .postInstallInvoked (pathJoin c.outputPath c.projectName) c.answers] ∧
    (generate t c fx).2 =
      (if e.isError then
        .error ⟨true, .filesystem, "Failed to generate project: " ++ e.msg⟩
      else .error e) := by
  obtain ⟨f1, f2, f3, f4⟩ := fx
  simp only at hdir hfiles hpkg
  subst hdir hfiles hpkg
  obtain ⟨tn, tdeps, tscr, tpost⟩ := t
  simp only at hnodeps hpost
  subst hnodeps hpost
  constructor
  · simp [generate, generateFiles, generatePackageJson, hrej, generateCatch_fst]
  · simp only [generate, generateFiles, generatePackageJson, hrej]
    cases he : e.isError <;> simp [he, generateCatch_snd_error]

/-- C3, witness: the amended theorem at the concrete rejecting handler. -/
theorem C3_amended_postinstall_fatal_wrapped_witness :
    (generate cx3Template cx3Config cx3Fx).1 =
      [.dirEnsured "/w/app", .filesGenerated,
       .pkgWritten "/w/app/package.json" (packageJsonDoc cx3Template cx3Config),
       .postInstallInvoked "/w/app" []] ∧
    (generate cx3Template cx3Config cx3Fx).2 =
      (if (true : Bool) then
        .error ⟨true, .filesystem, "Failed to generate project: boom"⟩
      else .error ⟨true, .other, "boom"⟩) :=
  C3_amended_postinstall_fatal_wrapped cx3Template cx3Config cx3Fx
    (fun _ _ => .error ⟨true, .other, "boom"⟩) ⟨true, .other, "boom"⟩
    rfl rfl rfl rfl rfl rfl

/-! ### Theorems about plugin installation -/

/-- find? over a registry with no matching key reaches an appended entry. -/
theorem mapGet_append_fresh (m : Registry) (s : String) (v : PluginCfg)
    (hk : mapHas m (.strv s) = false) :
    mapGet (m ++ [(JsVal.strv s, v)]) (.strv s) = some v := by
  induction m with
  | nil => simp [mapGet, List.find?, jsSameValueZero]
  | cons hd tl ih =>
    unfold mapHas at hk
    simp only [List.any_cons, Bool.or_eq_false_iff] at hk
    unfold mapGet at ih ⊢
    rw [List.cons_append, List.find?_cons_of_neg _ (by simp [hk.1])]
    exact ih hk.2

/-- Storing under a fresh key appends, leaving existing entries alone. -/
theorem mapSet_fresh (m : Registry) (k : JsVal) (v : PluginCfg)
    (hk : mapHas m k = false) :
    mapSet m k v = m ++ [(k, v)] := by
  unfold mapSet
  rw [hk]
  simp

/-- C8, counterexample: a plugin whose name is the empty string — present,
a string, not missing — with a grammatically valid version and an empty
registry is still rejected by install, because the source tests truthiness,
not mere presence; so the claimed exact failure condition is false here. -/
theorem C8_cex_empty_name_rejected :
    (∃ er, (install [] ⟨.strv "", .strv "1.0.0"⟩).1 = .error er) ∧
    mapHas [] (JsVal.strv "") = false ∧
    JsVal.strv "" ≠ .undefinedV ∧ JsVal.strv "" ≠ .nullv ∧
    (∃ s, JsVal.strv "" = .strv s) ∧ (∃ s, JsVal.strv "1.0.0" = .strv s) ∧
    semverTest "1.0.0" = true := by
  refine ⟨⟨⟨true, .plugin,
    "Failed to install plugin : Plugin name is required and must be a string"⟩, rfl⟩,
    rfl, by simp, by simp, ⟨"", rfl⟩, ⟨"1.0.0", rfl⟩, rfl⟩

/-- When any of the four rejection conditions hold, install returns a plugin
error and leaves the registry untouched. -/
theorem install_fail_state (plugins : Registry) (config : PluginCfg)
    (hfail : mapHas plugins config.name = true ∨ isTruthyString config.name = false ∨
      isTruthyString config.version = false ∨
      semverTest (jsToString config.version) = false) :
    ∃ er, install plugins config = (.error er, plugins) ∧
      er.isError = true ∧ er.kind = .plugin := by
  by_cases h1 : mapHas plugins config.name
  · have heq : install plugins config =
        (.error ⟨true, .plugin, "Failed to install plugin " ++ jsToString config.name
          ++ ": " ++ ("Plugin " ++ jsToString config.name ++ " is already installed")⟩,
         plugins) := by
      unfold install
      rw [if_pos h1]
      rfl
    exact ⟨_, heq, rfl, rfl⟩
  · rcases hfail with hf | hf | hf | hf
    · exact absurd hf h1
    · have heq : install plugins config =
          (.error ⟨true, .plugin, "Failed to install plugin " ++ jsToString config.name
            ++ ": " ++ "Plugin name is required and must be a string"⟩, plugins) := by
        unfold install validatePluginConfig
        rw [if_neg h1, if_pos (show ¬ isTruthyString config.name = true by simp [hf])]
        rfl
      exact ⟨_, heq, rfl, rfl⟩
    · by_cases h2 : isTruthyString config.name
      · have heq : install plugins config =
            (.error ⟨true, .plugin, "Failed to install plugin " ++ jsToString config.name
              ++ ": " ++ "Plugin version is required and must be a string"⟩, plugins) := by
          unfold install validatePluginConfig
          rw [if_neg h1, if_neg (show ¬ ¬ isTruthyString config.name = true by simp [h2]),
            if_pos (show ¬ isTruthyString config.version = true by simp [hf])]
          rfl
        exact ⟨_, heq, rfl, rfl⟩
      · have heq : install plugins config =
            (.error ⟨true, .plugin, "Failed to install plugin " ++ jsToString config.name
              ++ ": " ++ "Plugin name is required and must be a string"⟩, plugins) := by
          unfold install validatePluginConfig
          rw [if_neg h1, if_pos (show ¬ isTruthyString config.name = true by simp [h2])]
          rfl
        exact ⟨_, heq, rfl, rfl⟩
    · by_cases h2 : isTruthyString config.name
      · by_cases h3 : isTruthyString config.version
        · have heq : install plugins config =
              (.error ⟨true, .plugin, "Failed to install plugin " ++ jsToString config.name
                ++ ": " ++ ("Plugin version " ++ jsToString config.version
                  ++ " is not a valid semantic version")⟩, plugins) := by
            unfold install validatePluginConfig
            rw [if_neg h1, if_neg (show ¬ ¬ isTruthyString config.name = true by simp [h2]),
              if_neg (show ¬ ¬ isTruthyString config.version = true by simp [h3]),
              if_pos (show ¬ semverTest (jsToString config.version) = true by simp [hf])]
            rfl
          exact ⟨_, heq, rfl, rfl⟩
        · have heq : install plugins config =
              (.error ⟨true, .plugin, "Failed to install plugin " ++ jsToString config.name
                ++ ": " ++ "Plugin version is required and must be a string"⟩, plugins) := by
            unfold install validatePluginConfig
            rw [if_neg h1, if_neg (show ¬ ¬ isTruthyString config.name = true by simp [h2]),
              if_pos (show ¬ isTruthyString config.version = true by simp [h3])]
            rfl
          exact ⟨_, heq, rfl, rfl⟩
      · have heq : install plugins config =
            (.error ⟨true, .plugin, "Failed to install plugin " ++ jsToString config.name
              ++ ": " ++ "Plugin name is required and must be a string"⟩, plugins) := by
          unfold install validatePluginConfig
          rw [if_neg h1, if_pos (show ¬ isTruthyString config.name = true by simp [h2])]
          rfl
        exact ⟨_, heq, rfl, rfl⟩

/-- When none of the rejection conditions hold, install succeeds and stores
the configuration under its name. -/
theorem install_ok_state (plugins : Registry) (config : PluginCfg)
    (h1 : mapHas plugins config.name = false)
    (h2 : isTruthyString config.name = true)
    (h3 : isTruthyString config.version = true)
    (h4 : semverTest (jsToString config.version) = true) :
    install plugins config = (.ok (), mapSet plugins config.name config) := by
  unfold install validatePluginConfig
  rw [if_neg (show ¬ mapHas plugins config.name = true by simp [h1]),
    if_neg (show ¬ ¬ isTruthyString config.name = true by simp [h2]),
    if_neg (show ¬ ¬ isTruthyString config.version = true by simp [h3]),
    if_neg (show ¬ ¬ semverTest (jsToString config.version) = true by simp [h4])]

/-- C8, amended: install rejects with a plugin error exactly when the name is
already registered, or name or version is missing, empty, or not a string
(the truthy-string test), or the version fails the strict semver grammar; it
rejects the versions 1.0, v1.0.0 and 1.0.0.0, accepts 1.0.0, 1.0.0-beta.1
and 1.0.0+build.5, and on success stores the definition keyed by its name. -/
theorem C8_amended_install_validation (plugins : Registry) (config : PluginCfg) :
    ((∃ er, (install plugins config).1 = .error er) ↔
      (mapHas plugins config.name = true ∨
       isTruthyString config.name = false ∨
       isTruthyString config.version = false ∨
       semverTest (jsToString config.version) = false)) ∧
    (∀ er, (install plugins config).1 = .error er →
      er.isError = true ∧ er.kind = .plugin) ∧
    ((install plugins config).1 = .ok () →
      ∀ s, config.name = .strv s →
        getPlugin (install plugins config).2 s = some config) ∧
    semverTest "1.0" = false ∧ semverTest "v1.0.0" = false ∧
    semverTest "1.0.0.0" = false ∧ semverTest "1.0.0" = true ∧
    semverTest "1.0.0-beta.1" = true ∧ semverTest "1.0.0+build.5" = true := by
  by_cases hfail : mapHas plugins config.name = true ∨
      isTruthyString config.name = false ∨ isTruthyString config.version = false ∨
      semverTest (jsToString config.version) = false
  · obtain ⟨er, heq, hie, hik⟩ := install_fail_state plugins config hfail
    refine ⟨?_, ?_, ?_, rfl, rfl, rfl, rfl, rfl, rfl⟩
    · exact ⟨fun _ => hfail, fun _ => ⟨er, by rw [heq]⟩⟩
    · intro er' her'
      rw [heq] at her'
      cases her'
      exact ⟨hie, hik⟩
    · intro hok
      rw [heq] at hok
      cases hok
  · push_neg at hfail
    obtain ⟨h1, h2, h3, h4⟩ := hfail
    have h1' : mapHas plugins config.name = false := by
      cases hm : mapHas plugins config.name
      · rfl
      · exact absurd hm h1
    have heq := install_ok_state plugins config h1'
      (by cases hm : isTruthyString config.name with
        | true => rfl
        | false => exact absurd hm h2)
      (by cases hm : isTruthyString config.version with
        | true => rfl
        | false => exact absurd hm h3)
      (by cases hm : semverTest (jsToString config.version) with
        | true => rfl
        | false => exact absurd hm h4)
    refine ⟨?_, ?_, ?_, rfl, rfl, rfl, rfl, rfl, rfl⟩
    · constructor
      · intro ⟨er, her⟩
        rw [heq] at her
        cases her
      · intro hf
        rcases hf with hf | hf | hf | hf
        · exact absurd hf h1
        · exact absurd hf h2
        · exact absurd hf h3
        · exact absurd hf h4
    · intro er' her'
      rw [heq] at her'
      cases her'
    · intro _ s hs
      rw [heq]
      show getPlugin (mapSet plugins config.name config) s = some config
      rw [hs] at h1' ⊢
      unfold getPlugin
      rw [mapSet_fresh plugins _ config h1']
      exact mapGet_append_fresh plugins s config h1'

/-- C8, witness: a fresh valid plugin is accepted and stored under its name;
the cited version strings behave as claimed. -/
theorem C8_amended_install_validation_witness :
    getPlugin (install [] ⟨.strv "p1", .strv "1.0.0"⟩).2 "p1" =
      some ⟨.strv "p1", .strv "1.0.0"⟩ ∧
    semverTest "1.0" = false ∧ semverTest "1.0.0-beta.1" = true :=
  ⟨(C8_amended_install_validation [] ⟨.strv "p1", .strv "1.0.0"⟩).2.2.1 rfl "p1" rfl,
   (C8_amended_install_validation [] ⟨.strv "p1", .strv "1.0.0"⟩).2.2.2.1,
   (C8_amended_install_validation [] ⟨.strv "p1", .strv "1.0.0"⟩).2.2.2.2.2.2.1⟩

/-- C10: install is atomic with respect to the registry — whenever it
throws, the registry value is unchanged, so getPlugin answers exactly as
before for every name and listPlugins yields the same list. -/
theorem C10_install_atomic (plugins : Registry) (config : PluginCfg)
    (er : JsThrown) (h : (install plugins config).1 = .error er) :
    (install plugins config).2 = plugins ∧
    (∀ n, getPlugin (install plugins config).2 n = getPlugin plugins n) ∧
    listPlugins (install plugins config).2 = listPlugins plugins := by
  have hst : (install plugins config).2 = plugins := by
    unfold install at h ⊢
    by_cases h1 : mapHas plugins config.name
    · simp [h1]
    · cases hval : validatePluginConfig config with
      | error e =>
        simp only [h1, hval, if_false, Bool.false_eq_true]
        split <;> rfl
      | ok _ =>
        simp [h1, hval] at h
  exact ⟨hst, fun n => by rw [hst], by rw [hst]⟩

def cx10Cfg : PluginCfg := ⟨.strv "p1", .strv "1.0.0"⟩

def cx10Registry : Registry := [(.strv "p1", cx10Cfg)]

/-- C10, witness: re-installing an already-registered name fails and leaves
the registry observably unchanged. -/
theorem C10_install_atomic_witness :
    (install cx10Registry cx10Cfg).2 = cx10Registry ∧
    getPlugin (install cx10Registry cx10Cfg).2 "p1" = getPlugin cx10Registry "p1" ∧
    listPlugins (install cx10Registry cx10Cfg).2 = listPlugins cx10Registry :=
  have h := C10_install_atomic cx10Registry cx10Cfg
    ⟨true, .plugin, "Failed to install plugin p1: Plugin p1 is already installed"⟩ rfl
  ⟨h.1, h.2.1 "p1", h.2.2⟩

end CliBuilder
